import Mathlib

/-!
Verification of the UnixHostDuino host run-loop and terminal-lifecycle
controller (`src/Arduino.cpp`) against its natural-language specification.

The C file is embedded shallowly:
  * `struct termios` becomes the `Termios` structure; its flag words are
    `Nat` bitfields and the bit-mask macros (`INPCK`, `ONLCR`, ...) are
    defined with their Linux `<termios.h>` values.
  * The process-wide state touched by the controller (`orig_termios`,
    `inRawMode`, the terminal's current settings, and the result of
    `isatty(STDIN_FILENO)`) becomes the `TtyState` structure, passed
    explicitly.
  * Each C function becomes a Lean function from `TtyState` to an
    `Effect`: the new state, the ordered list of observable events the
    call performed (system calls, flag writes, `perror`, `exit`), and an
    `Outcome` (returned normally / called `exit` / still looping).
  * System calls that can fail (`tcgetattr`, `tcsetattr`,
    `clock_gettime`) take their success or failure as an explicit
    oracle argument, since failure is decided by the operating system.
-/

/-- `struct termios`: the four flag words plus the two control characters
the code touches (`c_cc[VMIN]`, `c_cc[VTIME]`). Flag words are `Nat`
bitfields. -/
structure Termios where
  c_iflag : Nat
  c_oflag : Nat
  c_cflag : Nat
  c_lflag : Nat
  c_cc_VMIN : Nat
  c_cc_VTIME : Nat
deriving DecidableEq, Repr

/-- `<termios.h>` input-flag `INPCK` (enable input parity checking), Linux value. -/
def INPCK : Nat := 0x010

/-- `<termios.h>` input-flag `ISTRIP` (strip the eighth bit), Linux value. -/
def ISTRIP : Nat := 0x020

/-- `<termios.h>` input-flag `IXON` (XON/XOFF output flow control), Linux value. -/
def IXON : Nat := 0x400

/-- `<termios.h>` output-flag `OPOST` (output post-processing), Linux value. -/
def OPOST : Nat := 0x01

/-- `<termios.h>` output-flag `ONLCR` (map NL to CR-NL on output), Linux value. -/
def ONLCR : Nat := 0x04

/-- `<termios.h>` control-flag `CS8` (8-bit character size; equals the full
`CSIZE` field mask on Linux). -/
def CS8 : Nat := 0x30

/-- `<termios.h>` local-flag `ISIG` (signal-generating characters such as
Ctrl-C), Linux value. -/
def ISIG : Nat := 0x01

/-- `<termios.h>` local-flag `ICANON` (canonical, line-buffered input), Linux value. -/
def ICANON : Nat := 0x02

/-- `<termios.h>` local-flag `IEXTEN` (extended input processing), Linux value. -/
def IEXTEN : Nat := 0x8000

/-- C's `x &= ~mask` on a `Nat` bitfield: clear every bit of `mask` in `x`. -/
def andNot (x mask : Nat) : Nat := x ^^^ (x &&& mask)

/-- The raw configuration derived from the captured settings, lines 89-102 of
`Arduino.cpp`:
`raw.c_iflag &= ~(INPCK | ISTRIP | IXON); raw.c_oflag |= (OPOST | ONLCR);`
`raw.c_cflag |= (CS8); raw.c_lflag &= ~(ICANON | IEXTEN);`
`raw.c_cc[VMIN] = 0; raw.c_cc[VTIME] = 0;`. -/
def rawFrom (t : Termios) : Termios :=
  { c_iflag := andNot t.c_iflag (INPCK ||| ISTRIP ||| IXON)
    c_oflag := t.c_oflag ||| (OPOST ||| ONLCR)
    c_cflag := t.c_cflag ||| CS8
    c_lflag := andNot t.c_lflag (ICANON ||| IEXTEN)
    c_cc_VMIN := 0
    c_cc_VTIME := 0 }

/-- The process-wide state the terminal-lifecycle controller touches:
whether `isatty(STDIN_FILENO)` holds, the terminal's currently applied
settings, and the two globals `orig_termios` and `inRawMode` of
`Arduino.cpp` lines 64-65. -/
structure TtyState where
  interactive : Bool
  termSettings : Termios
  orig_termios : Termios
  inRawMode : Bool
deriving DecidableEq, Repr

/-- Observable events, in program order: terminal system calls (with the
oracle-decided success bit), writes to the globals, `perror`, `exit`, and
the run-loop actions of `__main`. -/
inductive Ev where
  | tcgetattr (ok : Bool)
  | tcsetattr (arg : Termios) (ok : Bool)
  | saveOrig (t : Termios)
  | setFlag (b : Bool)
  | perror (msg : String)
  | exitCall (status : Nat)
  | sigintRegistered
  | atexitRegistered
  | userSetup
  | userLoop
  | readByte (c : Nat)
  | insertChar (c : Nat)
  | usleepCall (us : Nat)
deriving DecidableEq, Repr

/-- How a call ends: a normal return, a call to `exit`, or (for the
run loop observed after finitely many iterations) still running. -/
inductive Outcome where
  | ok
  | exited (status : Nat)
  | running
deriving DecidableEq, Repr

/-- Result of running an embedded C function: the state afterwards, the
events it performed in order, and how it ended. -/
structure Effect where
  state : TtyState
  events : List Ev
  outcome : Outcome
deriving DecidableEq, Repr

/-- `disableRawMode()` (lines 72-79): return if not a tty; return if
`!inRawMode`; otherwise `tcsetattr(STDIN_FILENO, TCSAFLUSH, &orig_termios)`,
and on failure set `inRawMode = false` then `die(...)` (`perror` + `exit(1)`).
Note that on success `inRawMode` is left unchanged. `setOk` is the oracle
for the `tcsetattr` call. -/
def disableRawMode (setOk : Bool) (st : TtyState) : Effect :=
  if !st.interactive then ⟨st, [], .ok⟩
  else if !st.inRawMode then ⟨st, [], .ok⟩
  else if setOk then
    ⟨{ st with termSettings := st.orig_termios },
      [.tcsetattr st.orig_termios true], .ok⟩
  else
    ⟨{ st with inRawMode := false },
      [.tcsetattr st.orig_termios false, .setFlag false,
        .perror "disableRawMode(): tcsetattr() failure", .exitCall 1],
      .exited 1⟩

/-- `enableRawMode()` (lines 81-107): return if not a tty; capture the
current settings into `orig_termios` via `tcgetattr` (`die` on failure);
derive `rawFrom` of them; apply it via `tcsetattr` (`die` on failure); set
`inRawMode = true`. `getOk` and `setOk` are the system-call oracles. -/
def enableRawMode (getOk setOk : Bool) (st : TtyState) : Effect :=
  if !st.interactive then ⟨st, [], .ok⟩
  else if !getOk then
    ⟨st, [.tcgetattr false,
          .perror "enableRawMode(): tcgetattr() failure", .exitCall 1],
      .exited 1⟩
  else
    let raw := rawFrom st.termSettings
    if setOk then
      ⟨{ st with orig_termios := st.termSettings,
                 termSettings := raw, inRawMode := true },
        [.tcgetattr true, .saveOrig st.termSettings,
          .tcsetattr raw true, .setFlag true], .ok⟩
    else
      ⟨{ st with orig_termios := st.termSettings },
        [.tcgetattr true, .saveOrig st.termSettings, .tcsetattr raw false,
          .perror "enableRawMode(): tcsetattr() failure", .exitCall 1],
        .exited 1⟩

/-- `handleControlC(int)` (lines 109-120): return if not a tty; if
`inRawMode`, attempt `tcsetattr(..., &orig_termios)` (on failure only
`perror`, never `die`) and clear the flag; finally `exit(1)`. -/
def handleControlC (setOk : Bool) (st : TtyState) : Effect :=
  if !st.interactive then ⟨st, [], .ok⟩
  else if st.inRawMode then
    if setOk then
      ⟨{ st with termSettings := st.orig_termios, inRawMode := false },
        [.tcsetattr st.orig_termios true, .setFlag false, .exitCall 1],
        .exited 1⟩
    else
      ⟨{ st with inRawMode := false },
        [.tcsetattr st.orig_termios false,
          .perror "handleControlC(): tcsetattr() failure", .setFlag false,
          .exitCall 1],
        .exited 1⟩
  else ⟨st, [.exitCall 1], .exited 1⟩

/-- A terminal operation invoked by a caller, with its system-call
success oracles. -/
inductive TtyOp where
  | enable (getOk setOk : Bool)
  | disable (setOk : Bool)
deriving DecidableEq, Repr

/-- Dispatch one `TtyOp`. -/
def runOp : TtyOp → TtyState → Effect
  | .enable g s, st => enableRawMode g s st
  | .disable s, st => disableRawMode s st

/-- Run a sequence of enable/disable calls, stopping if one of them
exits the process. -/
def runSeq : List TtyOp → TtyState → Effect
  | [], st => ⟨st, [], .ok⟩
  | op :: ops, st =>
    let e := runOp op st
    match e.outcome with
    | .ok =>
      let rest := runSeq ops e.state
      ⟨rest.state, e.events ++ rest.events, rest.outcome⟩
    | o => ⟨e.state, e.events, o⟩

/-- Is this event an attempted terminal system call (`tcgetattr` or
`tcsetattr`)? -/
def isTermSysCall : Ev → Bool
  | .tcgetattr _ => true
  | .tcsetattr _ _ => true
  | _ => false

/-- Is this event a restoration attempt, i.e. a `tcsetattr` call? -/
def isRestoreAttempt : Ev → Bool
  | .tcsetattr _ _ => true
  | _ => false

/-- Number of restoration attempts (`tcsetattr` calls) in an event list. -/
def restoreAttempts (evs : List Ev) : Nat :=
  (evs.filter isRestoreAttempt).length

/-- The characters handed to `Serial.insertChar` in an event list, in order. -/
def insertedChars (evs : List Ev) : List Nat :=
  evs.filterMap fun e =>
    match e with
    | .insertChar c => some c
    | _ => none

/-- `struct timespec` as filled in by `clock_gettime(CLOCK_MONOTONIC, ...)`:
seconds and nanoseconds since the monotonic epoch (both non-negative for a
monotonic clock). -/
structure Timespec where
  tv_sec : Nat
  tv_nsec : Nat
deriving DecidableEq, Repr

/-- What a clock query does: return a number to the caller, or abort the
process. (`Arduino.cpp` never takes the `fatal` branch; the constructor
exists so the specified behavior is expressible.) -/
inductive ClockOutcome where
  | value (n : Nat)
  | fatal
deriving DecidableEq, Repr

/-- `millis()` (lines 39-44): `clock_gettime(CLOCK_MONOTONIC, &spec)` with
its return value ignored, then
`unsigned long ms = spec.tv_sec * 1000U + spec.tv_nsec / 1000000UL`.
`clockRead = none` models a failing `clock_gettime`, which leaves the
stack-allocated `spec` holding its indeterminate prior contents `uninit`. -/
def millis (clockRead : Option Timespec) (uninit : Timespec) : ClockOutcome :=
  let spec := clockRead.getD uninit
  .value ((spec.tv_sec * 1000 + spec.tv_nsec / 1000000) % 2 ^ 64)

/-- `micros()` (lines 46-51): like `millis` with
`unsigned long us = spec.tv_sec * 1000000UL + spec.tv_nsec / 1000U`. -/
def micros (clockRead : Option Timespec) (uninit : Timespec) : ClockOutcome :=
  let spec := clockRead.getD uninit
  .value ((spec.tv_sec * 1000000 + spec.tv_nsec / 1000) % 2 ^ 64)

/-- `yield()` (lines 35-37): `usleep(1000)`, a roughly one-millisecond sleep. -/
def yieldEvents : List Ev := [.usleepCall 1000]

/-- One iteration of the service loop body of `__main` (lines 138-144):
`char c = '\0'; read(STDIN_FILENO, &c, 1); if (c) Serial.insertChar(c);`
`loop(); yield();`. `c` is the byte the non-blocking read stored, `0` when
no input was available. `loopPresent` says whether the weak symbol `loop`
was supplied by user code (the spec models the callbacks as optional,
no-op when absent). -/
def iterEvents (loopPresent : Bool) (c : Nat) : List Ev :=
  [.readByte c] ++ (if c ≠ 0 then [.insertChar c] else []) ++
    (if loopPresent then [.userLoop] else []) ++ yieldEvents

/-- The startup sequence of `__main` (lines 132-137):
`signal(SIGINT, handleControlC); atexit(disableRawMode); enableRawMode();`
`setup();`. If `enableRawMode` dies, the process exits there and neither
`setup` nor the loop runs. -/
def startupEffect (getOk setOk setupPresent : Bool) (st : TtyState) : Effect :=
  let e := enableRawMode getOk setOk st
  match e.outcome with
  | .ok =>
    ⟨e.state,
      [.sigintRegistered, .atexitRegistered] ++ e.events ++
        (if setupPresent then [.userSetup] else []),
      .ok⟩
  | o => ⟨e.state, [.sigintRegistered, .atexitRegistered] ++ e.events, o⟩

/-- `__main` observed after `n` iterations of its `while (true)` loop:
the startup sequence followed by `n` loop bodies. `input k` is the byte the
read of iteration `k` stored (`0` for none). The outcome is `.running`
while the loop is still going; `.ok` would mean `__main` returned, which
never happens. -/
def mainRun (getOk setOk setupPresent loopPresent : Bool)
    (input : Nat → Nat) (st : TtyState) : Nat → Effect
  | 0 =>
    let s := startupEffect getOk setOk setupPresent st
    match s.outcome with
    | .ok => ⟨s.state, s.events, .running⟩
    | _ => s
  | n + 1 =>
    let m := mainRun getOk setOk setupPresent loopPresent input st n
    match m.outcome with
    | .running =>
      ⟨m.state, m.events ++ iterEvents loopPresent (input n), .running⟩
    | _ => m

/-! ## Concrete states used by witnesses and counterexamples -/

/-- A typical cooked-mode terminal configuration (ICRNL and IXON input
flags, OPOST and ONLCR output flags, CS8 and CREAD, the usual local
flags). Any concrete value would do. -/
def cooked : Termios := ⟨0x500, 0x5, 0xB0, 0x8A3B, 1, 0⟩

/-- An interactive stdin that is not (yet) in raw mode. -/
def ttyOn : TtyState := ⟨true, cooked, cooked, false⟩

/-- A non-interactive stdin (redirected or piped), never in raw mode. -/
def ttyOff : TtyState := ⟨false, cooked, cooked, false⟩

/-- An interactive stdin currently in raw mode, with the cooked settings
saved in `orig_termios`. -/
def ttyRaw : TtyState := ⟨true, rawFrom cooked, cooked, true⟩

/-! ## Claims -/

/-- C3: on an interactive terminal, `enableRawMode` immediately followed by
`disableRawMode` leaves the terminal settings equal to the settings in
effect before the enable call. -/
theorem claim3_enable_disable_roundtrip (st : TtyState)
    (h : st.interactive = true) :
    (disableRawMode true (enableRawMode true true st).state).state.termSettings
      = st.termSettings := by
  simp [enableRawMode, disableRawMode, h]

/-- Witness for C3 at the concrete interactive state `ttyOn`. -/
theorem claim3_witness :
    (disableRawMode true (enableRawMode true true ttyOn).state).state.termSettings
      = ttyOn.termSettings :=
  claim3_enable_disable_roundtrip ttyOn rfl

/-- C4: with a non-interactive stdin, every sequence of enable/disable
calls returns normally, leaves the whole state (flag, saved settings,
terminal settings) unchanged, and performs no event at all, in particular
no terminal system call. -/
theorem claim4_noninteractive_pure_noop (ops : List TtyOp) (st : TtyState)
    (h : st.interactive = false) :
    runSeq ops st = ⟨st, [], Outcome.ok⟩ ∧
      (runSeq ops st).events.filter isTermSysCall = [] := by
  have key : runSeq ops st = ⟨st, [], Outcome.ok⟩ := by
    induction ops with
    | nil => rfl
    | cons op ops ih =>
      cases op with
      | enable g s => simp [runSeq, runOp, enableRawMode, h, ih]
      | disable s => simp [runSeq, runOp, disableRawMode, h, ih]
  exact ⟨key, by simp [key]⟩

/-- Witness for C4 at `ttyOff` with a three-call sequence. -/
theorem claim4_witness :
    runSeq [TtyOp.enable true true, TtyOp.disable true, TtyOp.enable false false]
        ttyOff = ⟨ttyOff, [], Outcome.ok⟩ ∧
      (runSeq [TtyOp.enable true true, TtyOp.disable true, TtyOp.enable false false]
        ttyOff).events.filter isTermSysCall = [] :=
  claim4_noninteractive_pure_noop
    [TtyOp.enable true true, TtyOp.disable true, TtyOp.enable false false] ttyOff rfl

/-- C9: on an interactive terminal in raw mode, when restoring the saved
settings fails, `disableRawMode` clears the Raw-Mode Flag before reporting
the fatal condition (the `setFlag false` event precedes `perror` and
`exit`), and the process terminates with status 1. -/
theorem claim9_disable_restore_failure (st : TtyState)
    (h1 : st.interactive = true) (h2 : st.inRawMode = true) :
    disableRawMode false st =
      ⟨{ st with inRawMode := false },
        [Ev.tcsetattr st.orig_termios false, Ev.setFlag false,
          Ev.perror "disableRawMode(): tcsetattr() failure", Ev.exitCall 1],
        Outcome.exited 1⟩ := by
  simp [disableRawMode, h1, h2]

/-- Witness for C9 at the concrete raw-mode state `ttyRaw`. -/
theorem claim9_witness :
    disableRawMode false ttyRaw =
      ⟨{ ttyRaw with inRawMode := false },
        [Ev.tcsetattr ttyRaw.orig_termios false, Ev.setFlag false,
          Ev.perror "disableRawMode(): tcsetattr() failure", Ev.exitCall 1],
        Outcome.exited 1⟩ :=
  claim9_disable_restore_failure ttyRaw rfl rfl

/-- C10: a successful `enableRawMode` always overwrites `orig_termios`
with the settings in effect just before the call, even when raw mode is
already active: after two successful enables the saved settings hold the
raw configuration, and a subsequent `disableRawMode` reapplies that raw
configuration instead of the pre-enable settings. -/
theorem claim10_enable_overwrites_saved (st : TtyState)
    (h : st.interactive = true) :
    (enableRawMode true true (enableRawMode true true st).state).state.orig_termios
        = rawFrom st.termSettings ∧
      (disableRawMode true
          (enableRawMode true true
            (enableRawMode true true st).state).state).state.termSettings
        = rawFrom st.termSettings := by
  simp [enableRawMode, disableRawMode, h]

/-- Witness for C10 at the concrete interactive state `ttyOn`. -/
theorem claim10_witness :
    (enableRawMode true true (enableRawMode true true ttyOn).state).state.orig_termios
        = rawFrom ttyOn.termSettings ∧
      (disableRawMode true
          (enableRawMode true true
            (enableRawMode true true ttyOn).state).state).state.termSettings
        = rawFrom ttyOn.termSettings :=
  claim10_enable_overwrites_saved ttyOn rfl

/-- C1 as stated is false: when stdin is not interactive (a reachable
situation, e.g. input piped from a file) and the Raw-Mode Flag is false,
`handleControlC` returns at its `isatty` guard without terminating the
process at all, instead of "terminating immediately with status 1". -/
theorem claim1_counterexample :
    ttyOff.inRawMode = false ∧
      handleControlC true ttyOff = ⟨ttyOff, [], Outcome.ok⟩ ∧
      ¬(handleControlC true ttyOff).outcome = Outcome.exited 1 := by
  decide

/-- C1 amended: when stdin is interactive, delivery of the interrupt
signal with the Raw-Mode Flag true makes exactly one restoration attempt
(a `tcsetattr` applying the Saved Terminal Settings) and terminates the
process with status 1, and with the flag false terminates immediately
with status 1 and no restoration attempt; when stdin is not interactive
the handler returns without restoring or terminating. -/
theorem claim1_handler_behavior (setOk : Bool) (st : TtyState) :
    ((handleControlC setOk st).events.filter isRestoreAttempt,
        (handleControlC setOk st).outcome) =
      (if st.interactive && st.inRawMode
          then [Ev.tcsetattr st.orig_termios setOk] else [],
        if st.interactive then Outcome.exited 1 else Outcome.ok) := by
  cases hI : st.interactive <;> cases hR : st.inRawMode <;> cases setOk <;>
    simp [handleControlC, isRestoreAttempt, hI, hR]

/-- C2 as stated is false: after a successful enable and a successful
disable on an interactive terminal, the code leaves `inRawMode` true
(the flag is cleared only on a failed restoration), so a second
`disableRawMode` call performs a further restoration attempt instead of
being a no-op. -/
theorem claim2_counterexample :
    (disableRawMode true (enableRawMode true true ttyOn).state).state.inRawMode
        = true ∧
      restoreAttempts
        (disableRawMode true
          (disableRawMode true (enableRawMode true true ttyOn).state).state).events
        = 1 := by
  decide

/-- C2 amended: `disableRawMode` called when raw mode was never enabled
is a failure-free no-op with no restoration attempt; but a successful
disable leaves the Raw-Mode Flag true, so a second disable after a
successful enable-disable pair performs one more restoration attempt,
reapplying the same Saved Terminal Settings, succeeding and leaving the
state unchanged. -/
theorem claim2_disable_not_idempotent (st : TtyState)
    (hI : st.interactive = true) :
    disableRawMode true { st with inRawMode := false } =
        ⟨{ st with inRawMode := false }, [], Outcome.ok⟩ ∧
      (disableRawMode true (enableRawMode true true st).state).state.inRawMode
        = true ∧
      disableRawMode true
          (disableRawMode true (enableRawMode true true st).state).state =
        ⟨(disableRawMode true (enableRawMode true true st).state).state,
          [Ev.tcsetattr st.termSettings true], Outcome.ok⟩ := by
  simp [enableRawMode, disableRawMode, hI]

/-- Witness for the amended C2 at the concrete interactive state `ttyOn`. -/
theorem claim2_witness :
    disableRawMode true { ttyOn with inRawMode := false } =
        ⟨{ ttyOn with inRawMode := false }, [], Outcome.ok⟩ ∧
      (disableRawMode true (enableRawMode true true ttyOn).state).state.inRawMode
        = true ∧
      disableRawMode true
          (disableRawMode true (enableRawMode true true ttyOn).state).state =
        ⟨(disableRawMode true (enableRawMode true true ttyOn).state).state,
          [Ev.tcsetattr ttyOn.termSettings true], Outcome.ok⟩ :=
  claim2_disable_not_idempotent ttyOn rfl

/-- C7 as stated is false: when the monotonic clock read fails,
`millis`/`micros` do not abort; they return a value computed from the
timespec's indeterminate prior contents (the result even depends on those
contents), because the return value of `clock_gettime` is ignored. -/
theorem claim7_counterexample :
    millis none ⟨5, 0⟩ = ClockOutcome.value 5000 ∧
      micros none ⟨5, 0⟩ = ClockOutcome.value 5000000 ∧
      ¬millis none ⟨5, 0⟩ = ClockOutcome.fatal ∧
      ¬millis none ⟨5, 0⟩ = millis none ⟨7, 0⟩ := by
  decide

/-- C7 amended: `millis` and `micros` expose no failure mode to callers —
they always return a value, never abort — but on a failed clock read the
value is computed from the unset timespec: the result is exactly what a
read that had produced those leftover contents would give. -/
theorem claim7_clock_never_aborts (clockRead : Option Timespec)
    (uninit : Timespec) :
    (∃ n, millis clockRead uninit = ClockOutcome.value n) ∧
      (∃ n, micros clockRead uninit = ClockOutcome.value n) ∧
      millis none uninit = millis (some uninit) uninit ∧
      micros none uninit = micros (some uninit) uninit :=
  ⟨⟨_, rfl⟩, ⟨_, rfl⟩, rfl, rfl⟩

/-- C8: each service-loop iteration hands the byte the read stored to
`Serial.insertChar` verbatim when it is non-null and makes no insertion
call when it is null: in particular the byte 0x41 is inserted exactly
once with value 0x41, and a null read inserts nothing. -/
theorem claim8_forward_verbatim (loopPresent : Bool) (c : Nat) :
    insertedChars (iterEvents loopPresent c) = (if c = 0 then [] else [c]) ∧
      insertedChars (iterEvents loopPresent 0x41) = [0x41] ∧
      insertedChars (iterEvents loopPresent 0) = [] := by
  refine ⟨?_, ?_, ?_⟩
  · cases loopPresent <;> by_cases h : c = 0 <;>
      simp [iterEvents, insertedChars, yieldEvents, h]
  · cases loopPresent <;> rfl
  · cases loopPresent <;> rfl

/-- Bit `i` of `andNot x mask` is bit `i` of `x` with the mask bits cleared. -/
theorem testBit_andNot (x mask i : Nat) :
    (andNot x mask).testBit i = (x.testBit i && !mask.testBit i) := by
  simp only [andNot, Nat.testBit_xor, Nat.testBit_land]
  cases x.testBit i <;> cases mask.testBit i <;> rfl

/-- Bits of the input-flag clear mask `INPCK ||| ISTRIP ||| IXON = 0x430`:
only bits 4, 5 and 10 are set. -/
theorem mask430_testBit (i : Nat) (h4 : i ≠ 4) (h5 : i ≠ 5) (h10 : i ≠ 10) :
    Nat.testBit 0x430 i = false := by
  rcases Nat.lt_or_ge i 11 with h | h
  · revert h4 h5 h10
    interval_cases i <;> decide
  · exact Nat.testBit_eq_false_of_lt
      (lt_of_lt_of_le (by decide) (Nat.pow_le_pow_right (by decide) h))

/-- Bits of the output-flag set mask `OPOST ||| ONLCR = 0x5`: only bits 0
and 2 are set. -/
theorem mask5_testBit (i : Nat) (h0 : i ≠ 0) (h2 : i ≠ 2) :
    Nat.testBit 0x5 i = false := by
  rcases Nat.lt_or_ge i 3 with h | h
  · revert h0 h2
    interval_cases i <;> decide
  · exact Nat.testBit_eq_false_of_lt
      (lt_of_lt_of_le (by decide) (Nat.pow_le_pow_right (by decide) h))

/-- Bits of the control-flag set mask `CS8 = 0x30`: only bits 4 and 5 are
set. -/
theorem mask30_testBit (i : Nat) (h4 : i ≠ 4) (h5 : i ≠ 5) :
    Nat.testBit 0x30 i = false := by
  rcases Nat.lt_or_ge i 6 with h | h
  · revert h4 h5
    interval_cases i <;> decide
  · exact Nat.testBit_eq_false_of_lt
      (lt_of_lt_of_le (by decide) (Nat.pow_le_pow_right (by decide) h))

/-- Bits of the local-flag clear mask `ICANON ||| IEXTEN = 0x8002`: only
bits 1 and 15 are set. -/
theorem mask8002_testBit (i : Nat) (h1 : i ≠ 1) (h15 : i ≠ 15) :
    Nat.testBit 0x8002 i = false := by
  rcases Nat.lt_or_ge i 16 with h | h
  · revert h1 h15
    interval_cases i <;> decide
  · exact Nat.testBit_eq_false_of_lt
      (lt_of_lt_of_le (by decide) (Nat.pow_le_pow_right (by decide) h))

/-- Bit view of the derived input flags. -/
theorem rawFrom_iflag_testBit (t : Termios) (i : Nat) :
    (rawFrom t).c_iflag.testBit i =
      (t.c_iflag.testBit i && !Nat.testBit 0x430 i) := by
  have hm : INPCK ||| ISTRIP ||| IXON = 0x430 := by decide
  simp [rawFrom, testBit_andNot, hm]

/-- Bit view of the derived output flags. -/
theorem rawFrom_oflag_testBit (t : Termios) (i : Nat) :
    (rawFrom t).c_oflag.testBit i =
      (t.c_oflag.testBit i || Nat.testBit 0x5 i) := by
  have hm : OPOST ||| ONLCR = 0x5 := by decide
  simp [rawFrom, Nat.testBit_lor, hm]

/-- Bit view of the derived control flags. -/
theorem rawFrom_cflag_testBit (t : Termios) (i : Nat) :
    (rawFrom t).c_cflag.testBit i =
      (t.c_cflag.testBit i || Nat.testBit 0x30 i) := by
  have hm : CS8 = 0x30 := by decide
  simp [rawFrom, Nat.testBit_lor, hm]

/-- Bit view of the derived local flags. -/
theorem rawFrom_lflag_testBit (t : Termios) (i : Nat) :
    (rawFrom t).c_lflag.testBit i =
      (t.c_lflag.testBit i && !Nat.testBit 0x8002 i) := by
  have hm : ICANON ||| IEXTEN = 0x8002 := by decide
  simp [rawFrom, testBit_andNot, hm]

/-- C5: the configuration `enableRawMode` applies is the captured original
modified exactly as the spec says, and nothing else. In flag-word bits:
input parity checking (`INPCK`, bit 4), input stripping (`ISTRIP`, bit 5)
and flow-control characters (`IXON`, bit 10) cleared and every other input
bit kept; output post-processing (`OPOST`, bit 0) and NL-to-CR-NL
translation (`ONLCR`, bit 2) set and every other output bit kept; 8-bit
frames forced (`CS8` = `CSIZE`, bits 4-5 both set) and every other control
bit kept; canonical input (`ICANON`, bit 1) and extended processing
(`IEXTEN`, bit 15) cleared while the signal-keystroke bit (`ISIG`, bit 0)
is left exactly as it was, like every other local bit; and
`VMIN = VTIME = 0`, so reads return immediately with whatever bytes are
available, including zero bytes. -/
theorem claim5_raw_configuration (t : Termios) :
    ((rawFrom t).c_iflag.testBit 4 = false ∧
        (rawFrom t).c_iflag.testBit 5 = false ∧
        (rawFrom t).c_iflag.testBit 10 = false ∧
        ∀ i, i ≠ 4 → i ≠ 5 → i ≠ 10 →
          (rawFrom t).c_iflag.testBit i = t.c_iflag.testBit i) ∧
      ((rawFrom t).c_oflag.testBit 0 = true ∧
        (rawFrom t).c_oflag.testBit 2 = true ∧
        ∀ i, i ≠ 0 → i ≠ 2 →
          (rawFrom t).c_oflag.testBit i = t.c_oflag.testBit i) ∧
      ((rawFrom t).c_cflag.testBit 4 = true ∧
        (rawFrom t).c_cflag.testBit 5 = true ∧
        ∀ i, i ≠ 4 → i ≠ 5 →
          (rawFrom t).c_cflag.testBit i = t.c_cflag.testBit i) ∧
      ((rawFrom t).c_lflag.testBit 1 = false ∧
        (rawFrom t).c_lflag.testBit 15 = false ∧
        (rawFrom t).c_lflag.testBit 0 = t.c_lflag.testBit 0 ∧
        ∀ i, i ≠ 1 → i ≠ 15 →
          (rawFrom t).c_lflag.testBit i = t.c_lflag.testBit i) ∧
      (rawFrom t).c_cc_VMIN = 0 ∧ (rawFrom t).c_cc_VTIME = 0 := by
  refine ⟨⟨?_, ?_, ?_, ?_⟩, ⟨?_, ?_, ?_⟩, ⟨?_, ?_, ?_⟩, ⟨?_, ?_, ?_, ?_⟩, rfl, rfl⟩
  · rw [rawFrom_iflag_testBit]
    simp [(by decide : Nat.testBit 0x430 4 = true)]
  · rw [rawFrom_iflag_testBit]
    simp [(by decide : Nat.testBit 0x430 5 = true)]
  · rw [rawFrom_iflag_testBit]
    simp [(by decide : Nat.testBit 0x430 10 = true)]
  · intro i h4 h5 h10
    rw [rawFrom_iflag_testBit]
    simp [mask430_testBit i h4 h5 h10]
  · rw [rawFrom_oflag_testBit]
    simp [(by decide : Nat.testBit 0x5 0 = true)]
  · rw [rawFrom_oflag_testBit]
    simp [(by decide : Nat.testBit 0x5 2 = true)]
  · intro i h0 h2
    rw [rawFrom_oflag_testBit]
    simp [mask5_testBit i h0 h2]
  · rw [rawFrom_cflag_testBit]
    simp [(by decide : Nat.testBit 0x30 4 = true)]
  · rw [rawFrom_cflag_testBit]
    simp [(by decide : Nat.testBit 0x30 5 = true)]
  · intro i h4 h5
    rw [rawFrom_cflag_testBit]
    simp [mask30_testBit i h4 h5]
  · rw [rawFrom_lflag_testBit]
    simp [(by decide : Nat.testBit 0x8002 1 = true)]
  · rw [rawFrom_lflag_testBit]
    simp [(by decide : Nat.testBit 0x8002 15 = true)]
  · rw [rawFrom_lflag_testBit]
    simp [mask8002_testBit 0 (by decide) (by decide)]
  · intro i h1 h15
    rw [rawFrom_lflag_testBit]
    simp [mask8002_testBit i h1 h15]

/-- Once startup completed normally, the loop is still running after any
number of iterations. -/
theorem mainRun_outcome_running (getOk setOk setupPresent loopPresent : Bool)
    (input : Nat → Nat) (st : TtyState)
    (h : (enableRawMode getOk setOk st).outcome = Outcome.ok) :
    ∀ n, (mainRun getOk setOk setupPresent loopPresent input st n).outcome
      = Outcome.running := by
  intro n
  induction n with
  | zero => simp [mainRun, startupEffect, h]
  | succ n ih => simp [mainRun, ih]

/-- C6: when `enableRawMode` completes normally, `__main` starts by
registering the interrupt handler, then registering the atexit disable,
then the `enableRawMode` events, then the optional one-time setup callback
(nothing when absent); after that every iteration appends exactly one
service-loop body (read one byte, insert it if non-null, optional
repeating callback, ~1ms yield) and the loop keeps running — after no
number of iterations has `__main` returned. -/
theorem claim6_main_startup_and_loop (getOk setOk setupPresent loopPresent : Bool)
    (input : Nat → Nat) (st : TtyState)
    (h : (enableRawMode getOk setOk st).outcome = Outcome.ok) :
    (mainRun getOk setOk setupPresent loopPresent input st 0).events =
        [Ev.sigintRegistered, Ev.atexitRegistered] ++
          (enableRawMode getOk setOk st).events ++
          (if setupPresent then [Ev.userSetup] else []) ∧
      (∀ n, mainRun getOk setOk setupPresent loopPresent input st (n + 1) =
        ⟨(mainRun getOk setOk setupPresent loopPresent input st n).state,
          (mainRun getOk setOk setupPresent loopPresent input st n).events ++
            iterEvents loopPresent (input n),
          Outcome.running⟩) ∧
      (∀ n, ¬(mainRun getOk setOk setupPresent loopPresent input st n).outcome
        = Outcome.ok) := by
  refine ⟨?_, ?_, ?_⟩
  · simp [mainRun, startupEffect, h]
  · intro n
    have hr := mainRun_outcome_running getOk setOk setupPresent
      loopPresent input st h n
    simp [mainRun, hr]
  · intro n
    rw [mainRun_outcome_running getOk setOk setupPresent loopPresent input st h n]
    simp

/-- Witness for C6 at concrete arguments: successful system calls, both
callbacks present, the input stream constantly 0x41, starting at `ttyOn`. -/
theorem claim6_witness :
    (mainRun true true true true (fun _ => 0x41) ttyOn 0).events =
        [Ev.sigintRegistered, Ev.atexitRegistered] ++
          (enableRawMode true true ttyOn).events ++
          (if true then [Ev.userSetup] else []) ∧
      (∀ n, mainRun true true true true (fun _ => 0x41) ttyOn (n + 1) =
        ⟨(mainRun true true true true (fun _ => 0x41) ttyOn n).state,
          (mainRun true true true true (fun _ => 0x41) ttyOn n).events ++
            iterEvents true ((fun _ => 0x41) n),
          Outcome.running⟩) ∧
      (∀ n, ¬(mainRun true true true true (fun _ => 0x41) ttyOn n).outcome
        = Outcome.ok) :=
  claim6_main_startup_and_loop true true true true (fun _ => 0x41) ttyOn
    (by decide)
